import Mathlib

/-
Verification development for the Weather Prediction Dashboard (src/app.py).

The app keeps a session state with one optional historical weather table and
two optional forecast tables (temperature and precipitation), plus a chat
history.  The embedding below models:
  * the session state and the button handlers that mutate it (app.py 297-332),
  * the data-summary builder get_data_summary (app.py 194-217),
  * the chat input gating and prompt construction (app.py 219-262),
  * the historical fetch row contract and the forecasting engine, which live
    in external collaborators (the Open-Meteo provider and the Prophet
    library) and are therefore modelled from the spec.
Dates are modelled as natural numbers (day indices); numeric values as ℚ.
-/

namespace Weather

/-- One day of provider values; a field is none when the provider reported no
value for that day (a missing value). Field names follow the daily columns
requested in app.py line 280. -/
structure DailyVals where
  temperature_2m_max : Option ℚ
  temperature_2m_min : Option ℚ
  precipitation_sum : Option ℚ
  rain_sum : Option ℚ
  windspeed_10m_max : Option ℚ

deriving instance DecidableEq, Repr for DailyVals

/-- One row of the historical dataframe: a date (day index) plus the values. -/
structure DailyRow where
  time : Nat
  vals : DailyVals

deriving instance DecidableEq, Repr for DailyRow

/-- The historical dataframe held in st.session_state.historical_data. -/
abbrev HistSeries := List DailyRow

/-- One row of a Prophet forecast dataframe, with the columns the app reads:
ds, yhat, yhat_lower, yhat_upper (app.py 147-152). -/
structure FPoint where
  ds : Nat
  yhat : ℚ
  yhat_lower : ℚ
  yhat_upper : ℚ

deriving instance DecidableEq, Repr for FPoint

/-- A chat message role as stored in st.session_state.chat_history. -/
inductive ChatRole where
  | user
  | assistant

deriving instance DecidableEq, Repr for ChatRole

/-- A chat history entry (app.py 257-258). -/
structure ChatMsg where
  role : ChatRole
  content : String

deriving instance DecidableEq, Repr for ChatMsg

/-- The session state initialised at app.py 14-22. -/
structure AppState where
  historical_data : Option HistSeries
  forecast_temp : Option (List FPoint)
  forecast_precip : Option (List FPoint)
  chat_history : List ChatMsg

deriving instance DecidableEq, Repr for AppState

/-- The on click handler of the Fetch Historical Data button (app.py
297-302): one st.session_state.update that stores the fetched table and sets
both forecast entries to None. -/
def fetchClick (s : AppState) (fetched : HistSeries) : AppState :=
  { s with historical_data := some fetched,
           forecast_temp := none,
           forecast_precip := none }

/-- The assignment st.session_state.forecast_temp = ... (app.py 326), i.e. the
set_forecast operation for the temperature variable. -/
def setForecastTemp (s : AppState) (f : List FPoint) : AppState :=
  { s with forecast_temp := some f }

/-- Modelled from the spec: the Historical Data Fetcher response. The code
(fetch_weather_data, app.py 273-284) turns the provider JSON into a dataframe
verbatim; the spec fixes the provider contract: one row for every calendar day
in the requested range, with missing days carried as missing values. The
provider is modelled as a function from day index to that day's values. -/
def fetch_weather_data (startD endD : Nat) (provider : Nat → DailyVals) :
    HistSeries :=
  (List.range (endD + 1 - startD)).map
    (fun i => { time := startD + i, vals := provider (startD + i) })

/-- Kind of scalar statistic appearing in the data summary. -/
inductive StatKind where
  | mean
  | smax
  | ssum

deriving instance DecidableEq, Repr for StatKind

/-- Which series and variable a summary statistic refers to. -/
inductive SumVar where
  | histMaxTemp
  | histMinTemp
  | histPrecip
  | fcTemp
  | fcPrecip

deriving instance DecidableEq, Repr for SumVar

/-- One line of the data summary built by get_data_summary, with the text
rendering abstracted to structured items. -/
inductive SummaryItem where
  | dateRange (lo hi : Nat)
  | stat (v : SumVar) (k : StatKind) (x : ℚ)

deriving instance DecidableEq, Repr for SummaryItem

/-- Least element of a list of day indices, 0 on the empty list (models
pandas min over the time column). -/
def minOfN : List Nat → Nat
  | [] => 0
  | v :: vs => vs.foldl min v

/-- Greatest element of a list of day indices, 0 on the empty list (models
pandas max over the time column). -/
def maxOfN : List Nat → Nat
  | [] => 0
  | v :: vs => vs.foldl max v

/-- The non-missing values of a column (pandas skips NaN in mean and sum). -/
def optVals (l : List (Option ℚ)) : List ℚ :=
  l.filterMap id

/-- Mean of a list of rationals (0 on the empty list, via division by 0). -/
def meanOf (l : List ℚ) : ℚ :=
  l.sum / (l.length : ℚ)

/-- Greatest element of a list of rationals, 0 on the empty list. -/
def maxOf : List ℚ → ℚ
  | [] => 0
  | v :: vs => vs.foldl max v

/-- The historical part of get_data_summary (app.py 198-204): date range,
mean of max temperature, mean of min temperature, total precipitation. -/
def histSummary : Option HistSeries → List SummaryItem
  | none => []
  | some h =>
    [SummaryItem.dateRange (minOfN (h.map (fun r => r.time)))
        (maxOfN (h.map (fun r => r.time))),
     SummaryItem.stat SumVar.histMaxTemp StatKind.mean
        (meanOf (optVals (h.map (fun r => r.vals.temperature_2m_max)))),
     SummaryItem.stat SumVar.histMinTemp StatKind.mean
        (meanOf (optVals (h.map (fun r => r.vals.temperature_2m_min)))),
     SummaryItem.stat SumVar.histPrecip StatKind.ssum
        (optVals (h.map (fun r => r.vals.precipitation_sum))).sum]

/-- The temperature forecast part of get_data_summary (app.py 206-210):
mean and max of the predicted values. -/
def tempFcSummary : Option (List FPoint) → List SummaryItem
  | none => []
  | some f =>
    [SummaryItem.stat SumVar.fcTemp StatKind.mean (meanOf (f.map (fun p => p.yhat))),
     SummaryItem.stat SumVar.fcTemp StatKind.smax (maxOf (f.map (fun p => p.yhat)))]

/-- The precipitation forecast part of get_data_summary (app.py 212-215):
only the sum of the predicted values. -/
def precipFcSummary : Option (List FPoint) → List SummaryItem
  | none => []
  | some f =>
    [SummaryItem.stat SumVar.fcPrecip StatKind.ssum (f.map (fun p => p.yhat)).sum]

/-- get_data_summary (app.py 194-217): the list of summary lines accumulated
for whatever is present in the session state. -/
def get_data_summary (s : AppState) : List SummaryItem :=
  histSummary s.historical_data ++ tempFcSummary s.forecast_temp ++
    precipFcSummary s.forecast_precip

/-- The text returned by get_data_summary: the joined digest when any lines
were accumulated, the fixed sentinel otherwise (app.py 217). -/
inductive SummaryText where
  | noData
  | digest (items : List SummaryItem)

deriving instance DecidableEq, Repr for SummaryText

/-- summarize: the return value of get_data_summary, with the fixed
"No data available" sentinel modelled as the noData constructor. -/
def summarize (s : AppState) : SummaryText :=
  if get_data_summary s = [] then SummaryText.noData
  else SummaryText.digest (get_data_summary s)

/-- The prompt get_chatbot_response sends to the external model (app.py
222-233): determined by the current data summary and the user question. -/
structure Prompt where
  summary : SummaryText
  question : String

deriving instance DecidableEq, Repr for Prompt

/-- Prompt construction in get_chatbot_response (app.py 219-233). -/
def chatPrompt (s : AppState) (input : String) : Prompt :=
  { summary := summarize s, question := input }

/-- Whether the second list is an initial segment of the first. -/
def takeEq : List Char → List Char → Bool
  | _, [] => true
  | [], _ :: _ => false
  | a :: as, b :: bs => a == b && takeEq as bs

/-- Whether the second list occurs as a contiguous sublist of the first. -/
def subIn : List Char → List Char → Bool
  | [], needle => needle.isEmpty
  | h :: t, needle => takeEq (h :: t) needle || subIn t needle

/-- Python kw in s.lower(): case-insensitive substring test (app.py 249). -/
def containsLower (s : String) (kw : String) : Bool :=
  subIn (s.toList.map Char.toLower) kw.toList

/-- The routing decision of the chat input handler (app.py 249-255): none
when the question is rejected for lack of data, otherwise the prompt sent to
the external model. -/
def chatRoute (s : AppState) (input : String) : Option Prompt :=
  if s.historical_data.isNone && !(containsLower input "forecast") then none
  else some (chatPrompt s input)

/-- Outcome of one chat submission. -/
inductive ChatOut where
  | noInput
  | warned
  | answered (p : Prompt)

deriving instance DecidableEq, Repr for ChatOut

/-- The chat input handler (app.py 247-262): on a nonempty question, either
warn and append nothing, or call the external model on the prompt and append
the user question and the response to the chat history. The external model is
an oracle argument. -/
def chatHandler (s : AppState) (input : String) (llm : Prompt → String) :
    AppState × ChatOut :=
  if input = "" then (s, ChatOut.noInput)
  else
    match chatRoute s input with
    | none => (s, ChatOut.warned)
    | some p =>
      ({ s with chat_history := s.chat_history ++
            [{ role := ChatRole.user, content := input },
             { role := ChatRole.assistant, content := llm p }] },
       ChatOut.answered p)

/-- Error kinds of the Forecasting Engine (spec section 7). -/
inductive FcErr where
  | insufficientData
  | numericalFailure

deriving instance DecidableEq, Repr for FcErr

/-- The observations usable for a fit: those with a value for the target
variable (Prophet drops rows whose y is missing before fitting). -/
def usablePoints (series : List (Nat × Option ℚ)) : List (Nat × ℚ) :=
  series.filterMap (fun p => p.2.map (fun v => (p.1, v)))

/-- Least squares straight line through the usable points (intercept, slope).
The spec allows a linear-in-parameters fit by regularized least squares or
equivalent; this is the plain least squares line. -/
def fitLine (pts : List (Nat × ℚ)) : ℚ × ℚ :=
  let n : ℚ := (pts.length : ℚ)
  let sx : ℚ := (pts.map (fun p => ((p.1 : ℚ)))).sum
  let sy : ℚ := (pts.map (fun p => p.2)).sum
  let sxx : ℚ := (pts.map (fun p => (p.1 : ℚ) * (p.1 : ℚ))).sum
  let sxy : ℚ := (pts.map (fun p => (p.1 : ℚ) * p.2)).sum
  let denom : ℚ := n * sxx - sx * sx
  let b : ℚ := (n * sxy - sx * sy) / denom
  ((sy - b * sx) / n, b)

/-- Spread of a list of values: greatest minus least, 0 on the empty list.
Used as the base residual scale of the uncertainty intervals; it is 0 exactly
for constant input. -/
def valSpread : List ℚ → ℚ
  | [] => 0
  | v :: vs => vs.foldl max v - vs.foldl min v

/-- First date of a series (0 for the empty series). -/
def firstDate (series : List (Nat × Option ℚ)) : Nat :=
  ((series.head?).map Prod.fst).getD 0

/-- Last date of a series (0 for the empty series). -/
def lastDate (series : List (Nat × Option ℚ)) : Nat :=
  ((series.getLast?).map Prod.fst).getD 0

/-- One forecast point: the fitted line evaluated at day d0 + i, with an
uncertainty interval whose half-width grows linearly with the distance of the
date beyond the last historical date. -/
def mkFPoint (d0 lastD : Nat) (ab : ℚ × ℚ) (spread : ℚ) (i : Nat) : FPoint :=
  { ds := d0 + i,
    yhat := ab.1 + ab.2 * ((d0 + i : Nat) : ℚ),
    yhat_lower := ab.1 + ab.2 * ((d0 + i : Nat) : ℚ) -
      spread * (1 + ((d0 + i - lastD : Nat) : ℚ)),
    yhat_upper := ab.1 + ab.2 * ((d0 + i : Nat) : ℚ) +
      spread * (1 + ((d0 + i - lastD : Nat) : ℚ)) }

/-- The forecast points: one per calendar day from the first historical date
through the last historical date plus the horizon. -/
def forecastPoints (series : List (Nat × Option ℚ)) (horizon : Nat) :
    List FPoint :=
  (List.range (lastDate series + 1 - firstDate series + horizon)).map
    (mkFPoint (firstDate series) (lastDate series)
      (fitLine (usablePoints series))
      (valSpread ((usablePoints series).map Prod.snd)))

/-- Modelled from the spec: the Forecasting Engine operation
forecast(series, variable, horizon). The code delegates the fit and the
prediction to the external Prophet library (app.py 308-327); the spec fixes
the contract: at least 2 usable points are required (InsufficientData
otherwise), the output covers every day of the historical span plus the
horizon, extrapolation continues the fitted trend, and the uncertainty
interval widens with the distance beyond the last observed date. The series
argument is the (date, optional value) column pair for the one target
variable. -/
def forecast (series : List (Nat × Option ℚ)) (horizon : Nat) :
    Except FcErr (List FPoint) :=
  if (usablePoints series).length < 2 then Except.error FcErr.insufficientData
  else Except.ok (forecastPoints series horizon)

/-- The temperature column extraction df_temp (app.py 309-311): rename time
to ds and temperature_2m_max to y. -/
def df_temp (h : HistSeries) : List (Nat × Option ℚ) :=
  h.map (fun r => (r.time, r.vals.temperature_2m_max))

/-- The precipitation column extraction df_precip (app.py 316-318). -/
def df_precip (h : HistSeries) : List (Nat × Option ℚ) :=
  h.map (fun r => (r.time, r.vals.precipitation_sum))

/-- The periods argument of make_future_dataframe (app.py 323). -/
def predictPeriods : Nat := 30

/-- Oracle for the external Prophet library calls made by the predict button
handler: whether each fit call succeeds, and the dataframe each predict call
returns for a given periods argument (none models a raised exception). -/
structure ProphetEnv where
  fitTempOk : Bool
  fitPrecipOk : Bool
  predTempAt : Nat → Option (List FPoint)
  predPrecipAt : Nat → Option (List FPoint)

/-- Notice shown by the predict button handler. -/
inductive Notice where
  | noNotice
  | warnFetchFirst
  | predictionFailed

deriving instance DecidableEq, Repr for Notice

/-- The Predict Next 30 Days button handler (app.py 305-332). The statements
of the try block run in order; an exception at any call aborts the rest but
keeps the session state assignments already made, and is caught by the
except arm which shows the failure notice. In particular the assignment of
forecast_temp (line 326) happens before model_precip.predict (line 327). -/
def predictHandler (s : AppState) (env : ProphetEnv) : AppState × Notice :=
  if s.historical_data.isNone then (s, Notice.warnFetchFirst)
  else if !env.fitTempOk then (s, Notice.predictionFailed)
  else if !env.fitPrecipOk then (s, Notice.predictionFailed)
  else
    match env.predTempAt predictPeriods with
    | none => (s, Notice.predictionFailed)
    | some ft =>
      match env.predPrecipAt predictPeriods with
      | none => ({ s with forecast_temp := some ft }, Notice.predictionFailed)
      | some fp =>
        ({ s with forecast_temp := some ft, forecast_precip := some fp },
         Notice.noNotice)

/-- Provider values for a fully reported mild day. -/
def valsMild : DailyVals :=
  { temperature_2m_max := some (37 / 2),
    temperature_2m_min := some 10,
    precipitation_sum := some 0,
    rain_sum := some 0,
    windspeed_10m_max := some 5 }

/-- A one-row historical table whose max temperature is 18.5. -/
def histOneRow : HistSeries :=
  [{ time := 0, vals := valsMild }]

/-- The freshly initialised session state (app.py 14-22). -/
def emptyState : AppState :=
  { historical_data := none, forecast_temp := none, forecast_precip := none,
    chat_history := [] }

/-- A state with historical data loaded and no forecasts. -/
def stateWithHist : AppState :=
  { emptyState with historical_data := some histOneRow }

/-- A trivial external-model oracle. -/
def llm0 : Prompt → String := fun _ => "ok"

/-- A two-point constant series used to exercise the engine. -/
def seriesW : List (Nat × Option ℚ) := [(0, some 1), (1, some 1)]

/-- The engine output on seriesW with horizon 2. -/
def ptsW : List FPoint :=
  [{ ds := 0, yhat := 1, yhat_lower := 1, yhat_upper := 1 },
   { ds := 1, yhat := 1, yhat_lower := 1, yhat_upper := 1 },
   { ds := 2, yhat := 1, yhat_lower := 1, yhat_upper := 1 },
   { ds := 3, yhat := 1, yhat_lower := 1, yhat_upper := 1 }]

/-- A one-row forecast dataframe. -/
def fcOneRow : List FPoint :=
  [{ ds := 2, yhat := 1, yhat_lower := 1, yhat_upper := 1 }]

/-- A state holding only a precipitation forecast. -/
def statePrecipOnly : AppState :=
  { emptyState with forecast_precip := some [{ ds := 0, yhat := 5, yhat_lower := 3, yhat_upper := 7 }] }

/-- Whether a summary line is a max statistic of the precipitation forecast. -/
def isFcPrecipMax : SummaryItem → Bool
  | SummaryItem.stat SumVar.fcPrecip StatKind.smax _ => true
  | _ => false

/-- Whether a summary line is a mean statistic of the precipitation forecast. -/
def isFcPrecipMean : SummaryItem → Bool
  | SummaryItem.stat SumVar.fcPrecip StatKind.mean _ => true
  | _ => false

/-- A Prophet oracle where both fits and the temperature prediction succeed
but the precipitation prediction raises. -/
def envPrecipFails : ProphetEnv :=
  { fitTempOk := true, fitPrecipOk := true,
    predTempAt := fun _ => some fcOneRow, predPrecipAt := fun _ => none }

/-- A Prophet oracle where every call succeeds. -/
def envAllOk : ProphetEnv :=
  { fitTempOk := true, fitPrecipOk := true,
    predTempAt := fun _ => some fcOneRow, predPrecipAt := fun _ => some fcOneRow }

/-- An all-missing provider. -/
def providerNone : Nat → DailyVals :=
  fun _ => { temperature_2m_max := none, temperature_2m_min := none,
             precipitation_sum := none, rain_sum := none,
             windspeed_10m_max := none }

/-- A state holding historical data and both forecasts. -/
def stateFull : AppState :=
  { historical_data := some histOneRow, forecast_temp := some fcOneRow,
    forecast_precip := some fcOneRow, chat_history := [] }

lemma le_foldl_max (l : List ℚ) (v : ℚ) : v ≤ l.foldl max v := by
  induction l generalizing v with
  | nil => exact le_refl v
  | cons h t ih =>
    calc v ≤ max v h := le_max_left v h
    _ ≤ t.foldl max (max v h) := ih (max v h)

lemma foldl_min_le (l : List ℚ) (v : ℚ) : l.foldl min v ≤ v := by
  induction l generalizing v with
  | nil => exact le_refl v
  | cons h t ih =>
    calc t.foldl min (min v h) ≤ min v h := ih (min v h)
    _ ≤ v := min_le_left v h

lemma valSpread_nonneg (l : List ℚ) : 0 ≤ valSpread l := by
  cases l with
  | nil => simp [valSpread]
  | cons v vs =>
    have h1 := le_foldl_max vs v
    have h2 := foldl_min_le vs v
    simp only [valSpread]
    linarith

/-- Claim C2: setting new historical data clears every stored forecast in the
same update; after set_historical A, set_forecast temp F, set_historical B,
the stored temperature forecast is absent, and no forecast survives the
replacement. -/
theorem fetch_clears_forecasts (s : AppState) (A B : HistSeries)
    (F : List FPoint) :
    (fetchClick (setForecastTemp (fetchClick s A) F) B).forecast_temp = none
    ∧ (fetchClick s A).forecast_temp = none
    ∧ (fetchClick s A).forecast_precip = none :=
  ⟨rfl, rfl, rfl⟩

/-- Claim C4: requesting a forecast with no historical series set fails with
the fetch-first warning and leaves both stored forecast series unchanged. -/
theorem predict_without_hist (s : AppState) (env : ProphetEnv)
    (h : s.historical_data = none) :
    predictHandler s env = (s, Notice.warnFetchFirst)
    ∧ (predictHandler s env).1.forecast_temp = s.forecast_temp
    ∧ (predictHandler s env).1.forecast_precip = s.forecast_precip := by
  have hn : s.historical_data.isNone = true := by rw [h]; rfl
  simp [predictHandler, hn]

/-- Claim C4 witness. -/
theorem predict_without_hist_witness :
    predictHandler emptyState envAllOk = (emptyState, Notice.warnFetchFirst)
    ∧ (predictHandler emptyState envAllOk).1.forecast_temp =
        emptyState.forecast_temp
    ∧ (predictHandler emptyState envAllOk).1.forecast_precip =
        emptyState.forecast_precip :=
  predict_without_hist emptyState envAllOk rfl

/-- Claim C10: a nonempty chat question submitted with no historical data
loaded is rejected with a warning and appends nothing, unless it contains the
substring forecast case-insensitively, in which case the answering path runs
anyway and appends the question and the external answer. -/
theorem chat_no_data_gate (s : AppState) (input : String)
    (llm : Prompt → String) (hh : s.historical_data = none)
    (hne : input ≠ "") :
    (containsLower input "forecast" = false →
       chatHandler s input llm = (s, ChatOut.warned))
    ∧ (containsLower input "forecast" = true →
       chatHandler s input llm =
         ({ s with chat_history := s.chat_history ++
              [{ role := ChatRole.user, content := input },
               { role := ChatRole.assistant,
                 content := llm (chatPrompt s input) }] },
          ChatOut.answered (chatPrompt s input))) := by
  have hn : s.historical_data.isNone = true := by rw [hh]; rfl
  constructor
  · intro hc
    simp [chatHandler, chatRoute, hn, hc, hne]
  · intro hc
    simp [chatHandler, chatRoute, hn, hc, hne]

/-- Claim C10 witness. -/
theorem chat_no_data_gate_witness :
    chatHandler emptyState "hello" llm0 = (emptyState, ChatOut.warned)
    ∧ chatHandler emptyState "FORECAST please" llm0 =
        ({ emptyState with chat_history := emptyState.chat_history ++
             [{ role := ChatRole.user, content := "FORECAST please" },
              { role := ChatRole.assistant,
                content := llm0 (chatPrompt emptyState "FORECAST please") }] },
         ChatOut.answered (chatPrompt emptyState "FORECAST please")) :=
  ⟨(chat_no_data_gate emptyState "hello" llm0 rfl (by decide)).1 (by decide),
   (chat_no_data_gate emptyState "FORECAST please" llm0 rfl (by decide)).2
     (by decide)⟩

/-- Claim C3 counterexample: a temperature keyword question is routed to the
external model with the data summary as context, not answered from the Store
without an external call; and with no data loaded, tell me a joke is rejected
with a warning, not returned as an Unmatched routing result. -/
theorem chat_routing_counterexample :
    chatRoute stateWithHist "What is the temperature today" =
      some (chatPrompt stateWithHist "What is the temperature today")
    ∧ chatHandler emptyState "tell me a joke" llm0 =
        (emptyState, ChatOut.warned) :=
  ⟨rfl, by decide⟩

/-- Claim C3 amended: there is no keyword pattern table; whenever historical
data is loaded, or the question contains the substring forecast, the question
is sent to the external model with the data summary as context, and when no
data is loaded and the question lacks that substring it is rejected. -/
theorem chat_routing (s : AppState) (input : String) :
    (s.historical_data.isNone = false →
       chatRoute s input = some (chatPrompt s input))
    ∧ (containsLower input "forecast" = true →
       chatRoute s input = some (chatPrompt s input))
    ∧ (s.historical_data = none → containsLower input "forecast" = false →
       chatRoute s input = none) := by
  refine ⟨?_, ?_, ?_⟩
  · intro h
    simp [chatRoute, h]
  · intro h
    simp [chatRoute, h]
  · intro h1 h2
    have hn : s.historical_data.isNone = true := by rw [h1]; rfl
    simp [chatRoute, hn, h2]

/-- Claim C3 amended witness. -/
theorem chat_routing_witness :
    chatRoute stateWithHist "hi" = some (chatPrompt stateWithHist "hi") :=
  (chat_routing stateWithHist "hi").1 rfl

/-- Claim C7 counterexample: with both fits and the temperature prediction
succeeding and the precipitation prediction raising, the attempt fails but
the stored temperature forecast has changed from none to the fresh value. -/
theorem predict_failure_counterexample :
    (predictHandler stateWithHist envPrecipFails).2 = Notice.predictionFailed
    ∧ stateWithHist.forecast_temp = none
    ∧ (predictHandler stateWithHist envPrecipFails).1.forecast_temp =
        some fcOneRow :=
  ⟨rfl, rfl, rfl⟩

/-- Claim C7 amended: a failure during either fit or during the temperature
prediction leaves the state unchanged, and any failed attempt leaves the
stored precipitation forecast unchanged; but a failure in the precipitation
prediction, which runs after the temperature forecast assignment, leaves the
freshly computed temperature forecast stored. -/
theorem predict_failure_effects (s : AppState) (env : ProphetEnv)
    (hist : HistSeries) (ft : List FPoint)
    (hh : s.historical_data = some hist) :
    ((env.fitTempOk = false ∨ env.fitPrecipOk = false ∨
        env.predTempAt predictPeriods = none) →
      predictHandler s env = (s, Notice.predictionFailed))
    ∧ ((predictHandler s env).2 ≠ Notice.noNotice →
        (predictHandler s env).1.forecast_precip = s.forecast_precip)
    ∧ (env.fitTempOk = true → env.fitPrecipOk = true →
        env.predTempAt predictPeriods = some ft →
        env.predPrecipAt predictPeriods = none →
        predictHandler s env =
          ({ s with forecast_temp := some ft }, Notice.predictionFailed)) := by
  have hn : s.historical_data.isNone = false := by rw [hh]; rfl
  refine ⟨?_, ?_, ?_⟩
  · intro hcase
    rcases hcase with h1 | h1 | h1
    · simp [predictHandler, hn, h1]
    · cases hft : env.fitTempOk <;> simp [predictHandler, hn, hft, h1]
    · cases hft : env.fitTempOk <;> cases hfp : env.fitPrecipOk <;>
        simp [predictHandler, hn, hft, hfp, h1]
  · intro hne
    cases hft : env.fitTempOk with
    | false => simp [predictHandler, hn, hft]
    | true =>
      cases hfp : env.fitPrecipOk with
      | false => simp [predictHandler, hn, hft, hfp]
      | true =>
        cases hpt : env.predTempAt predictPeriods with
        | none => simp [predictHandler, hn, hft, hfp, hpt]
        | some ft2 =>
          cases hpp : env.predPrecipAt predictPeriods with
          | none => simp [predictHandler, hn, hft, hfp, hpt, hpp]
          | some fp =>
            exact absurd (by simp [predictHandler, hn, hft, hfp, hpt, hpp])
              hne
  · intro h1 h2 h3 h4
    simp [predictHandler, hn, h1, h2, h3, h4]

/-- Claim C7 amended witness. -/
theorem predict_failure_effects_witness :
    predictHandler stateWithHist envPrecipFails =
      ({ stateWithHist with forecast_temp := some fcOneRow },
       Notice.predictionFailed) :=
  (predict_failure_effects stateWithHist envPrecipFails histOneRow fcOneRow
    rfl).2.2 rfl rfl rfl rfl

/-- Claim C9 counterexample: with a precipitation forecast present, the data
summary contains neither a mean nor a max statistic of its predicted values,
only the sum; so the summary does not report mean and max per forecast
variable as claimed. -/
theorem summary_counterexample :
    statePrecipOnly.forecast_precip.isSome = true
    ∧ (get_data_summary statePrecipOnly).any isFcPrecipMax = false
    ∧ (get_data_summary statePrecipOnly).any isFcPrecipMean = false :=
  ⟨rfl, by decide, by decide⟩

/-- Claim C9 amended: the data summary is a deterministic function of the
session state; it is empty, and the text output is the no-data sentinel,
exactly when neither historical data nor any forecast is present; with
historical data it reports the date range together with mean max temperature,
mean min temperature and total precipitation; a temperature forecast
contributes mean and max of its predictions; a precipitation forecast
contributes only the sum of its predictions, and neither a mean nor a max
statistic of the precipitation forecast ever appears. -/
theorem summary_contents (s : AppState) :
    (get_data_summary s = [] ↔
       s.historical_data = none ∧ s.forecast_temp = none ∧
         s.forecast_precip = none)
    ∧ (summarize s = SummaryText.noData ↔ get_data_summary s = [])
    ∧ (∀ h, s.historical_data = some h →
        SummaryItem.dateRange (minOfN (h.map (fun r => r.time)))
            (maxOfN (h.map (fun r => r.time))) ∈ get_data_summary s
        ∧ SummaryItem.stat SumVar.histMaxTemp StatKind.mean
            (meanOf (optVals (h.map (fun r => r.vals.temperature_2m_max))))
            ∈ get_data_summary s
        ∧ SummaryItem.stat SumVar.histMinTemp StatKind.mean
            (meanOf (optVals (h.map (fun r => r.vals.temperature_2m_min))))
            ∈ get_data_summary s
        ∧ SummaryItem.stat SumVar.histPrecip StatKind.ssum
            (optVals (h.map (fun r => r.vals.precipitation_sum))).sum
            ∈ get_data_summary s)
    ∧ (∀ f, s.forecast_temp = some f →
        SummaryItem.stat SumVar.fcTemp StatKind.mean
            (meanOf (f.map (fun p => p.yhat))) ∈ get_data_summary s
        ∧ SummaryItem.stat SumVar.fcTemp StatKind.smax
            (maxOf (f.map (fun p => p.yhat))) ∈ get_data_summary s)
    ∧ (∀ f, s.forecast_precip = some f →
        SummaryItem.stat SumVar.fcPrecip StatKind.ssum
            ((f.map (fun p => p.yhat)).sum) ∈ get_data_summary s)
    ∧ (∀ x, SummaryItem.stat SumVar.fcPrecip StatKind.smax x ∉
        get_data_summary s)
    ∧ (∀ x, SummaryItem.stat SumVar.fcPrecip StatKind.mean x ∉
        get_data_summary s) := by
  obtain ⟨hd, ft, fp, ch⟩ := s
  cases hd <;> cases ft <;> cases fp <;>
    simp [get_data_summary, histSummary, tempFcSummary, precipFcSummary,
      summarize]

/-- Claim C9 amended witness. -/
theorem summary_contents_witness :
    SummaryItem.stat SumVar.fcPrecip StatKind.ssum
        ((fcOneRow.map (fun p => p.yhat)).sum) ∈ get_data_summary stateFull :=
  (summary_contents stateFull).2.2.2.2.1 fcOneRow rfl

/-- Claim C6: the fetched historical series has one row per calendar day of
the requested range: its length is the calendar-day count, its dates are the
contiguous ascending days of the range and are pairwise distinct, and every
day of the range appears as a row even when the provider reported nothing
for it. -/
theorem fetch_rows_shape (startD endD : Nat) (provider : Nat → DailyVals)
    (h : startD ≤ endD) :
    (fetch_weather_data startD endD provider).length = endD - startD + 1
    ∧ (∀ i (hi : i < (fetch_weather_data startD endD provider).length),
        ((fetch_weather_data startD endD provider).get ⟨i, hi⟩).time =
          startD + i)
    ∧ ((fetch_weather_data startD endD provider).map
        (fun r => r.time)).Nodup
    ∧ (∀ d, startD ≤ d → d ≤ endD →
        ∃ r ∈ fetch_weather_data startD endD provider, r.time = d) := by
  have hlen : (fetch_weather_data startD endD provider).length =
      endD - startD + 1 := by
    simp [fetch_weather_data]
    omega
  have hget : ∀ i (hi : i < (fetch_weather_data startD endD provider).length),
      ((fetch_weather_data startD endD provider).get ⟨i, hi⟩).time =
        startD + i := by
    intro i hi
    simp [fetch_weather_data, List.get_eq_getElem]
  refine ⟨hlen, hget, ?_, ?_⟩
  · have hmap : (fetch_weather_data startD endD provider).map
        (fun r => r.time) =
        (List.range (endD + 1 - startD)).map (fun i => startD + i) := by
      simp [fetch_weather_data, List.map_map]
    rw [hmap]
    exact List.Nodup.map (fun a b hab => by omega) (List.nodup_range _)
  · intro d h1 h2
    have hi : d - startD < (fetch_weather_data startD endD provider).length := by
      omega
    refine ⟨(fetch_weather_data startD endD provider).get ⟨d - startD, hi⟩,
      List.get_mem _ _ hi, ?_⟩
    have := hget (d - startD) hi
    omega

/-- Claim C6 witness. -/
theorem fetch_rows_shape_witness :
    (fetch_weather_data 0 1 providerNone).length = 1 - 0 + 1
    ∧ (∀ i (hi : i < (fetch_weather_data 0 1 providerNone).length),
        ((fetch_weather_data 0 1 providerNone).get ⟨i, hi⟩).time = 0 + i)
    ∧ ((fetch_weather_data 0 1 providerNone).map (fun r => r.time)).Nodup
    ∧ (∀ d, 0 ≤ d → d ≤ 1 →
        ∃ r ∈ fetch_weather_data 0 1 providerNone, r.time = d) :=
  fetch_rows_shape 0 1 providerNone (by decide)

/-- Claim C5: the forecast operation fails with InsufficientData exactly when
fewer than 2 points remain after removing observations missing the target
variable, and with at least 2 usable points it returns a forecast series. -/
theorem forecast_insufficient (series : List (Nat × Option ℚ))
    (horizon : Nat) :
    (forecast series horizon = Except.error FcErr.insufficientData ↔
      (usablePoints series).length < 2)
    ∧ (2 ≤ (usablePoints series).length →
        ∃ pts, forecast series horizon = Except.ok pts) := by
  constructor
  · constructor
    · intro hfe
      by_contra hc
      simp [forecast, hc] at hfe
    · intro hc
      simp [forecast, hc]
  · intro hc
    have hnl : ¬ (usablePoints series).length < 2 := by omega
    exact ⟨forecastPoints series horizon, by simp [forecast, hnl]⟩

/-- Claim C5 witness. -/
theorem forecast_insufficient_witness :
    forecast [(0, some 1)] 5 = Except.error FcErr.insufficientData
    ∧ ∃ pts, forecast seriesW 2 = Except.ok pts :=
  ⟨(forecast_insufficient [(0, some 1)] 5).1.mpr (by decide),
   (forecast_insufficient seriesW 2).2 (by decide)⟩

lemma lastDate_of_contig (series : List (Nat × Option ℚ)) (d0 : Nat)
    (hne : series ≠ [])
    (hdates : ∀ i (h : i < series.length), (series.get ⟨i, h⟩).1 = d0 + i) :
    lastDate series = d0 + (series.length - 1) := by
  have hgl : series.getLast? = some (series.getLast hne) :=
    List.getLast?_eq_getLast_of_ne_nil hne
  have h2 : series.length - 1 < series.length := by
    cases series with
    | nil => exact absurd rfl hne
    | cons a l => simp
  have hge : (series.getLast hne).1 = d0 + (series.length - 1) := by
    rw [List.getLast_eq_getElem]
    have := hdates (series.length - 1) h2
    simpa [List.get_eq_getElem] using this
  simp [lastDate, hgl, hge]

lemma firstDate_of_contig (series : List (Nat × Option ℚ)) (d0 : Nat)
    (hne : series ≠ [])
    (hdates : ∀ i (h : i < series.length), (series.get ⟨i, h⟩).1 = d0 + i) :
    firstDate series = d0 := by
  cases series with
  | nil => exact absurd rfl hne
  | cons a l =>
    have := hdates 0 (by simp)
    simpa [firstDate] using this

/-- Claim C1: with at least 2 usable points and a positive horizon, the
forecast of a contiguous historical series succeeds and returns one point per
calendar day, starting at the first historical date, with length equal to the
historical length plus the horizon; the forecast action of the app uses
horizon 30. -/
theorem forecast_shape (series : List (Nat × Option ℚ)) (horizon d0 : Nat)
    (hne : series ≠ [])
    (hdates : ∀ i (h : i < series.length), (series.get ⟨i, h⟩).1 = d0 + i)
    (husable : 2 ≤ (usablePoints series).length)
    (hpos : 0 < horizon) :
    ∃ pts, forecast series horizon = Except.ok pts
      ∧ pts.length = series.length + horizon
      ∧ (∀ i (h : i < pts.length), (pts.get ⟨i, h⟩).ds = d0 + i)
      ∧ predictPeriods = 30 := by
  have hnl : ¬ (usablePoints series).length < 2 := by omega
  have h1 : 1 ≤ series.length := by
    cases series with
    | nil => exact absurd rfl hne
    | cons a l => simp
  have hfd := firstDate_of_contig series d0 hne hdates
  have hld := lastDate_of_contig series d0 hne hdates
  refine ⟨forecastPoints series horizon, ?_, ?_, ?_, rfl⟩
  · simp [forecast, hnl]
  · simp only [forecastPoints, List.length_map, List.length_range, hfd, hld]
    omega
  · intro i h
    simp only [forecastPoints, List.get_eq_getElem, List.getElem_map,
      List.getElem_range, mkFPoint, hfd]

/-- Claim C1 witness. -/
theorem forecast_shape_witness :
    ∃ pts, forecast seriesW 2 = Except.ok pts
      ∧ pts.length = seriesW.length + 2
      ∧ (∀ i (h : i < pts.length), (pts.get ⟨i, h⟩).ds = 0 + i)
      ∧ predictPeriods = 30 :=
  forecast_shape seriesW 2 0 (by decide) (by decide) (by decide) (by decide)

/-- Claim C8: in a successful forecast, for two forecast points both dated
strictly after the last historical date, the later point's uncertainty
interval is at least as wide as the earlier one's. -/
theorem forecast_width_mono (series : List (Nat × Option ℚ)) (horizon : Nat)
    (pts : List FPoint) (p q : FPoint)
    (hok : forecast series horizon = Except.ok pts)
    (hp : p ∈ pts) (hq : q ∈ pts)
    (hbeyond : lastDate series < p.ds) (hlt : p.ds < q.ds) :
    p.yhat_upper - p.yhat_lower ≤ q.yhat_upper - q.yhat_lower := by
  have hpts : pts = forecastPoints series horizon := by
    by_cases hc : (usablePoints series).length < 2
    · simp [forecast, hc] at hok
    · simp [forecast, hc] at hok
      exact hok.symm
  subst hpts
  rw [forecastPoints] at hp hq
  obtain ⟨i, hi, hpi⟩ := List.mem_map.mp hp
  obtain ⟨j, hj, hqj⟩ := List.mem_map.mp hq
  subst hpi
  subst hqj
  have hsp := valSpread_nonneg ((usablePoints series).map Prod.snd)
  simp only [mkFPoint] at hbeyond hlt ⊢
  have hij : firstDate series + i - lastDate series ≤
      firstDate series + j - lastDate series := by
    omega
  have hcast : ((firstDate series + i - lastDate series : Nat) : ℚ) ≤
      ((firstDate series + j - lastDate series : Nat) : ℚ) := by
    exact_mod_cast hij
  nlinarith [mul_le_mul_of_nonneg_left hcast hsp]

/-- Claim C8 witness. -/
theorem forecast_width_mono_witness :
    ({ ds := 2, yhat := 1, yhat_lower := 1, yhat_upper := 1 } : FPoint).yhat_upper -
        ({ ds := 2, yhat := 1, yhat_lower := 1, yhat_upper := 1 } : FPoint).yhat_lower ≤
      ({ ds := 3, yhat := 1, yhat_lower := 1, yhat_upper := 1 } : FPoint).yhat_upper -
        ({ ds := 3, yhat := 1, yhat_lower := 1, yhat_upper := 1 } : FPoint).yhat_lower :=
  forecast_width_mono seriesW 2 ptsW
    { ds := 2, yhat := 1, yhat_lower := 1, yhat_upper := 1 }
    { ds := 3, yhat := 1, yhat_lower := 1, yhat_upper := 1 }
    (by
      have hu : usablePoints seriesW = [(0, 1), (1, 1)] := by
        norm_num [usablePoints, seriesW, List.filterMap_cons]
      have hfit : fitLine [((0 : Nat), (1 : ℚ)), (1, 1)] = (1, 0) := by
        norm_num [fitLine]
      have hspread :
          valSpread (List.map Prod.snd [((0 : Nat), (1 : ℚ)), (1, 1)]) = 0 := by
        norm_num [valSpread]
      have hfirst : firstDate seriesW = 0 := rfl
      have hlast : lastDate seriesW = 1 := rfl
      rw [forecast]
      rw [if_neg (by rw [hu]; norm_num)]
      rw [forecastPoints, hu, hfirst, hlast, hfit, hspread]
      norm_num [ptsW, mkFPoint, List.range_succ])
    (by decide) (by decide) (by decide) (by decide)

end Weather
